import Mathlib

/-!
Verification of the Census Manager (service/census/censusmanager.go):
a shallow embedding of the namespace registry (`AddNamespace`), the auth
gate (`checkAuth`) and the protocol dispatcher (`Handler`, `HTTPhandler`),
together with theorems settling the specification claims.

The verifiable tree is an external collaborator; it is modelled by a
record of operations (`TreeOps`) over an abstract tree type, with
fallible operations returning `Except String`.  Go `int32` arithmetic is
modelled on `Int` with an explicit two's-complement wrap (`wrap32`).
-/

namespace CensusManager

/-- Two's-complement wrap of an integer into the `int32` range,
modelling Go `int32` casts and overflow. -/
def wrap32 (x : Int) : Int := (x + 2 ^ 31) % 2 ^ 32 - 2 ^ 31

/-- Time window (seconds) in which TimeStamp will be accepted if auth
enabled (`authTimeWindow` in the source). -/
def authTimeWindow : Int := 10

/-- Embedding of `checkAuth(timestamp int32, signed, pubKey, message string) bool`.
The external signature capability `currentSignature.Verify` is a parameter
`verify : message → signed → pubKey → (verdict, error?)`; `now` is the
Unix time read by `time.Now().Unix()` (cast to `int32` by `wrap32`).
The source compares with strict `<` / `>` and returns the verdict `v`
even when `err != nil` (the error is only logged). -/
def checkAuth (verify : String → String → String → Bool × Option String)
    (now timestamp : Int) (signed pubKey message : String) : Bool :=
  if pubKey.length < 1 then true
  else
    let currentTime := wrap32 now
    if timestamp < wrap32 (currentTime + authTimeWindow) ∧
        wrap32 (currentTime - authTimeWindow) < timestamp then
      (verify message signed pubKey).1
    else
      false

/-- Embedding of `types.CensusRequest`: the method together with its
parameters and the envelope authentication fields. -/
structure CensusRequest where
  method : String
  censusID : String
  claimData : String
  rootHash : String
  proofData : String
  timeStamp : Int
  sig : String
deriving Repr, DecidableEq

/-- Embedding of `types.CensusResponse`. -/
structure CensusResponse where
  ok : Bool
  error : String
  timeStamp : Int
  root : String
  siblings : String
  idx : Int
  claimsData : List String
  validProof : Bool
  request : String
deriving Repr, DecidableEq

/-- The external verifiable-tree contract (`tree.Tree`), one abstract
tree type `T` for both live trees and snapshot views; fallible
operations return `Except String`. -/
structure TreeOps (T : Type) where
  initTree : String → T
  getRoot : T → String
  addClaim : T → String → Except String T
  snapshot : T → String → Except String T
  genProof : T → String → Except String String
  getIndex : T → String → Except String Int
  dump : T → Except String (List String)
  checkProof : T → String → String → Except String Bool

/-- The census manager's global state: the `MkTrees` map of merkle trees
indexed by censusId and the `Signatures` map of management pubKeys. -/
structure CMState (T : Type) where
  mkTrees : String → Option T
  signatures : String → Option String

/-- The empty state (both maps unallocated / empty). -/
def emptyState (T : Type) : CMState T :=
  { mkTrees := fun _ => none, signatures := fun _ => none }

/-- Embedding of `AddNamespace(name, pubKey string)`: unconditionally
binds `name` to a fresh tree (`mkTree.Init(name)`) and to `pubKey`,
overwriting any previous binding.  The `len(map)==0` branches of the
source only allocate the maps and are absorbed by the total-function
representation. -/
def AddNamespace {T : Type} (ops : TreeOps T) (s : CMState T)
    (name pubKey : String) : CMState T :=
  { mkTrees := fun k => if k = name then some (ops.initTree name) else s.mkTrees k,
    signatures := fun k => if k = name then some pubKey else s.signatures k }

/-- The response as first initialised by `Handler`: `Ok = true`,
`Error = ""`, `TimeStamp = int32(time.Now().Unix())`, all other fields
at their Go zero values. -/
def emptyResponse (now : Int) : CensusResponse :=
  { ok := true, error := "", timeStamp := wrap32 now, root := "",
    siblings := "", idx := 0, claimsData := [], validProof := false,
    request := "" }

/-- The view-selection step of `Handler` (lines 159-171): if
`len(rootHash) > 1` take a snapshot of the tree at that root, otherwise
use the current tree. -/
def resolveView {T : Type} (ops : TreeOps T) (t : T) (rootHash : String) :
    Except String T :=
  if rootHash.length > 1 then ops.snapshot t rootHash else .ok t

/-- The per-method dispatch of `Handler` on the selected view `t`
(lines 173-225).  For `getIdx` the source assigns the error to `err`
but never checks it, so the response keeps `Ok = true`; the view's
index result is stored only on success (the tree returns the zero
value alongside an error). -/
def dispatchView {T : Type} (ops : TreeOps T) (r : CensusRequest)
    (isAuth : Bool) (t : T) (resp : CensusResponse) : CensusResponse :=
  if r.method = "genProof" then
    match ops.genProof t r.claimData with
    | .ok sib => { resp with siblings := sib }
    | .error e => { resp with ok := false, error := e }
  else if r.method = "getIdx" then
    match ops.getIndex t r.claimData with
    | .ok i => { resp with idx := i }
    | .error _ => resp
  else if r.method = "dump" then
    if !isAuth then { resp with ok := false, error := "invalid authentication" }
    else
      match ops.dump t with
      | .ok vs => { resp with claimsData := vs }
      | .error e => { resp with ok := false, error := e }
  else if r.method = "checkProof" then
    if r.proofData.length < 1 then
      { resp with ok := false, error := "proofData not provided" }
    else
      match ops.checkProof t r.claimData r.proofData with
      | .ok v => { resp with validProof := v }
      | .error e => { resp with ok := false, error := e }
  else resp

/-- Embedding of `Handler(r *types.CensusRequest, isAuth bool)`.  The
source's `for k := range MkTrees` membership scan followed by the
`MkTrees[r.CensusID]` accesses is a single map lookup.  `addClaim`
mutates the target tree in place through the stored pointer, modelled
by returning the updated state. -/
def Handler {T : Type} (ops : TreeOps T) (s : CMState T) (r : CensusRequest)
    (now : Int) (isAuth : Bool) : CensusResponse × CMState T :=
  let resp := emptyResponse now
  match s.mkTrees r.censusID with
  | none => ({ resp with ok := false, error := "censusId not valid or not found" }, s)
  | some tr =>
    if r.method = "getRoot" then
      ({ resp with root := ops.getRoot tr }, s)
    else if r.method = "addClaim" then
      if isAuth then
        match ops.addClaim tr r.claimData with
        | .ok tr2 =>
          (resp, { s with mkTrees := fun k => if k = r.censusID then some tr2 else s.mkTrees k })
        | .error e => ({ resp with ok := false, error := e }, s)
      else
        ({ resp with ok := false, error := "invalid authentication" }, s)
    else
      match resolveView ops tr r.rootHash with
      | .error _ => ({ resp with ok := false, error := "invalid root hash" }, s)
      | .ok tv => (dispatchView ops r isAuth tv resp, s)

/-- Embedding of `types.CensusRequestMessage` (envelope id + request). -/
structure CensusRequestMessage where
  id : String
  request : CensusRequest
deriving Repr, DecidableEq

/-- Embedding of `types.CensusResponseMessage` (envelope id, response,
service signature over the response). -/
structure CensusResponseMessage where
  id : String
  response : CensusResponse
  sig : String
deriving Repr, DecidableEq

/-- Embedding of the dispatcher invocation in `HTTPhandler` (after the
transport-level body/JSON checks): requests with an empty method are
rejected at the transport level (`none`); otherwise the dispatcher is
called with `isAuth` hard-wired to `true` — `checkAuth` does not occur
in this definition — and the response message echoes the request id and
carries the service's signature `signResp` over the response. -/
def HTTPhandler {T : Type} (ops : TreeOps T) (signResp : CensusResponse → String)
    (s : CMState T) (rm : CensusRequestMessage) (now : Int) :
    Option (CensusResponseMessage × CMState T) :=
  if rm.request.method.length < 1 then none
  else
    let pr := Handler ops s rm.request now true
    let resp2 := { pr.1 with request := rm.id }
    some ({ id := rm.id, response := resp2, sig := signResp resp2 }, pr.2)

/-- A concrete instance of the external tree contract used for witness
evaluation: a tree is its list of claims, a root names a historical
length-prefix of that list. -/
def listTreeOps : TreeOps (List String) :=
  { initTree := fun _ => [],
    getRoot := fun t => String.intercalate "," t,
    addClaim := fun t d =>
      if t.contains d then .error "duplicate claim" else .ok (t ++ [d]),
    snapshot := fun t r =>
      match (List.range (t.length + 1)).find?
          (fun n => String.intercalate "," (t.take n) = r) with
      | some n => .ok (t.take n)
      | none => .error "root not found",
    genProof := fun t d =>
      if t.contains d then .ok ("proof:" ++ d) else .error "claim not found",
    getIndex := fun t d =>
      if t.contains d then .ok ((t.takeWhile (fun x => x != d)).length : Int)
      else .error "claim not found",
    dump := fun t => .ok t,
    checkProof := fun t d p =>
      if p = "bad" then .error "malformed proof"
      else .ok (p == "proof:" ++ d && t.contains d) }

/-- Witness state: a single registered census `"c"` holding the claim
`"alice"`, with management key `"pk"`. -/
def sW : CMState (List String) :=
  { mkTrees := fun k => if k = "c" then some ["alice"] else none,
    signatures := fun k => if k = "c" then some "pk" else none }

/-- Tree-error hypotheses used by the response invariant: every error
message the tree operations can produce is non-empty (the dispatcher
copies them verbatim into `error`). -/
def TreeOps.errorsNonempty {T : Type} (ops : TreeOps T) : Prop :=
  (∀ t d e, ops.addClaim t d = .error e → e ≠ "") ∧
  (∀ t d e, ops.genProof t d = .error e → e ≠ "") ∧
  (∀ t e, ops.dump t = .error e → e ≠ "") ∧
  (∀ t d p e, ops.checkProof t d p = .error e → e ≠ "")

/-- Request constructor with zeroed envelope fields, for concrete
witness inputs. -/
def mkReq (m c cd rh pd : String) : CensusRequest :=
  { method := m, censusID := c, claimData := cd, rootHash := rh,
    proofData := pd, timeStamp := 0, sig := "" }

/-- Concrete request message for the HTTP-path witness. -/
def rmW : CensusRequestMessage :=
  { id := "rq1", request := { mkReq "getRoot" "c" "" "" "" with timeStamp := 7, sig := "aa" } }

/-- Trivial concrete response-signing capability for witnesses. -/
def signW : CensusResponse → String := fun _ => "srvsig"

/-- State after `AddNamespace("a", "k1")` on the empty state. -/
def sC5a : CMState (List String) :=
  AddNamespace listTreeOps (emptyState (List String)) "a" "k1"

/-- State after additionally inserting the claim `"alice"` into census
`"a"` through the dispatcher. -/
def sC5b : CMState (List String) :=
  (Handler listTreeOps sC5a (mkReq "addClaim" "a" "alice" "" "") 0 true).2

/-- State after a second `AddNamespace("a", "k2")` call. -/
def sC5c : CMState (List String) :=
  AddNamespace listTreeOps sC5b "a" "k2"

/-- On the `int32` range the two's-complement wrap is the identity. -/
theorem wrap32_eq_self {x : Int} (h1 : -2 ^ 31 ≤ x) (h2 : x < 2 ^ 31) :
    wrap32 x = x := by
  have e31 : (2 : Int) ^ 31 = 2147483648 := by norm_num
  have e32 : (2 : Int) ^ 32 = 4294967296 := by norm_num
  unfold wrap32
  rw [e32, e31] at *
  rw [Int.emod_eq_of_lt (by omega) (by omega)]
  omega

/-- Claim C1 is false on the code as stated: at `now = 1000` the
boundary timestamp `now + W = 1010` with a successful, error-free
verification is rejected (the source comparisons are strict), and a
verification that reports an error together with a `true` verdict is
accepted (the source only logs the error and returns the verdict). -/
theorem checkAuth_claim_counterexample :
    ((1000 : Int) - authTimeWindow ≤ 1010 ∧ (1010 : Int) ≤ 1000 + authTimeWindow ∧
      checkAuth (fun _ _ _ => (true, none)) 1000 1010 "s" "pk" "m" = false) ∧
    checkAuth (fun _ _ _ => (true, some "boom")) 1000 1000 "s" "pk" "m" = true := by
  decide

/-- Claim C1 (amended): with a non-empty `authKey`, `checkAuth`
authorizes iff `now - W < timestamp < now + W` with both bounds strict
(W = 10) and the external verification verdict is `true`; a
verification error is only logged and does not force rejection.  With
an empty `authKey` authorization always succeeds.  Stated away from
`int32` overflow. -/
theorem checkAuth_characterization
    (verify : String → String → String → Bool × Option String)
    (now ts : Int) (signed pubKey message : String)
    (h1 : -2 ^ 31 ≤ now - authTimeWindow) (h2 : now + authTimeWindow < 2 ^ 31) :
    checkAuth verify now ts signed pubKey message = true ↔
      (pubKey.length = 0 ∨
        (now - authTimeWindow < ts ∧ ts < now + authTimeWindow ∧
          (verify message signed pubKey).1 = true)) := by
  unfold checkAuth authTimeWindow at *
  have hn : wrap32 now = now := wrap32_eq_self (by omega) (by omega)
  have hplus : wrap32 (now + 10) = now + 10 := wrap32_eq_self (by omega) (by omega)
  have hminus : wrap32 (now - 10) = now - 10 := wrap32_eq_self (by omega) (by omega)
  simp only [hn, hplus, hminus]
  by_cases hp : pubKey.length < 1
  · simp [hp, Nat.lt_one_iff.mp hp]
  · rw [if_neg hp]
    have hp0 : pubKey.length ≠ 0 := by omega
    by_cases hw : ts < now + 10 ∧ now - 10 < ts
    · simp only [if_pos hw, hp0, false_or]
      constructor
      · intro hv
        exact ⟨hw.2, hw.1, hv⟩
      · intro hv
        exact hv.2.2
    · simp only [if_neg hw, hp0, false_or]
      constructor
      · intro hv
        exact absurd hv (by simp)
      · intro hv
        exact absurd ⟨hv.2.1, hv.1⟩ hw

/-- Witness for the amended C1 theorem at a concrete in-window input. -/
theorem checkAuth_characterization_witness :
    checkAuth (fun _ _ _ => (true, none)) 1000 1005 "s" "pk" "m" = true :=
  (checkAuth_characterization (fun _ _ _ => (true, none)) 1000 1005 "s" "pk" "m"
      (by decide) (by decide)).mpr
    (Or.inr ⟨by decide, by decide, rfl⟩)

/-- Claim C2: the HTTP protocol path always invokes the dispatcher with
the authorization flag hard-wired to `true` (the auth gate `checkAuth`
does not occur on this path), so its outcome is invariant under changes
to the request's `timeStamp` and `sig` envelope fields. -/
theorem http_path_always_authorized {T : Type} (ops : TreeOps T)
    (signResp : CensusResponse → String) (s : CMState T)
    (rm : CensusRequestMessage) (now : Int)
    (h : 1 ≤ rm.request.method.length) :
    (HTTPhandler ops signResp s rm now =
      some ({ id := rm.id,
              response := { (Handler ops s rm.request now true).1 with request := rm.id },
              sig := signResp
                { (Handler ops s rm.request now true).1 with request := rm.id } },
            (Handler ops s rm.request now true).2)) ∧
    (∀ ts sg, HTTPhandler ops signResp s
        { rm with request := { rm.request with timeStamp := ts, sig := sg } } now =
      HTTPhandler ops signResp s rm now) := by
  constructor
  · unfold HTTPhandler
    rw [if_neg (by omega)]
  · intro ts sg
    obtain ⟨i, r⟩ := rm
    obtain ⟨m, c, cd, rh, pd, t0, g0⟩ := r
    rfl

/-- Witness for the C2 theorem at a concrete request message. -/
theorem http_path_always_authorized_witness :
    HTTPhandler listTreeOps signW sW
        { rmW with request := { rmW.request with timeStamp := 99, sig := "zz" } } 5 =
      HTTPhandler listTreeOps signW sW rmW 5 :=
  (http_path_always_authorized listTreeOps signW sW rmW 5 (by decide)).2 99 "zz"

/-- Claim C7: an unregistered `censusId` yields `ok = false` with error
`"censusId not valid or not found"` before anything else, for every
method and authorization flag, leaving the state untouched. -/
theorem handler_unknown_census {T : Type} (ops : TreeOps T) (s : CMState T)
    (r : CensusRequest) (now : Int) (isAuth : Bool)
    (h : s.mkTrees r.censusID = none) :
    Handler ops s r now isAuth =
      ({ (emptyResponse now) with
          ok := false, error := "censusId not valid or not found" }, s) := by
  unfold Handler
  rw [h]

/-- Witness for the C7 theorem at a concrete unregistered census id. -/
theorem handler_unknown_census_witness :
    Handler listTreeOps sW (mkReq "dump" "zz" "" "" "") 5 false =
      ({ (emptyResponse 5) with
          ok := false, error := "censusId not valid or not found" }, sW) :=
  handler_unknown_census listTreeOps sW (mkReq "dump" "zz" "" "" "") 5 false (by decide)

/-- Claim C3 is false on the code as stated: a supplied `rootHash` of
length exactly 1 (`"x"`, never a historical root of the tree) does not
yield `ok=false, error="invalid root hash"` — the source's guard is
`len(rootHash) > 1`, so the live tree is used and the request
succeeds. -/
theorem rootHash_length_counterexample :
    (mkReq "genProof" "c" "alice" "x" "").rootHash.length > 0 ∧
    listTreeOps.snapshot ["alice"] "x" = .error "root not found" ∧
    sW.mkTrees "c" = some ["alice"] ∧
    (Handler listTreeOps sW (mkReq "genProof" "c" "alice" "x" "") 5 true).1.ok = true ∧
    (Handler listTreeOps sW (mkReq "genProof" "c" "alice" "x" "") 5 true).1.error = "" :=
  ⟨by decide, rfl, by decide, by decide, by decide⟩

/-- Claim C3 (amended): for methods other than `getRoot`/`addClaim` on
a registered census, a `rootHash` of length greater than 1 selects a
snapshot at that root — a never-historical root yields `ok=false` with
error `"invalid root hash"`, a known root dispatches on the snapshot —
while a `rootHash` of length at most 1 (in particular the absent,
empty one) dispatches on the live tree. -/
theorem handler_rootHash_resolution {T : Type} (ops : TreeOps T) (s : CMState T)
    (r : CensusRequest) (now : Int) (isAuth : Bool) (tr : T)
    (hreg : s.mkTrees r.censusID = some tr)
    (hm1 : r.method ≠ "getRoot") (hm2 : r.method ≠ "addClaim") :
    (∀ e, r.rootHash.length > 1 → ops.snapshot tr r.rootHash = .error e →
      Handler ops s r now isAuth =
        ({ (emptyResponse now) with
            ok := false, error := "invalid root hash" }, s)) ∧
    (∀ tv, r.rootHash.length > 1 → ops.snapshot tr r.rootHash = .ok tv →
      Handler ops s r now isAuth =
        (dispatchView ops r isAuth tv (emptyResponse now), s)) ∧
    (r.rootHash.length ≤ 1 →
      Handler ops s r now isAuth =
        (dispatchView ops r isAuth tr (emptyResponse now), s)) := by
  unfold Handler resolveView
  rw [hreg]
  simp only [hm1, hm2, if_neg, if_false]
  refine ⟨?_, ?_, ?_⟩
  · intro e hlen hsnap
    rw [if_pos hlen, hsnap]
  · intro tv hlen hsnap
    rw [if_pos hlen, hsnap]
  · intro hlen
    rw [if_neg (by omega)]

/-- Witness for the amended C3 theorem: an absent `rootHash` dispatches
on the live tree. -/
theorem handler_rootHash_resolution_witness :
    Handler listTreeOps sW (mkReq "genProof" "c" "alice" "" "") 5 true =
      (dispatchView listTreeOps (mkReq "genProof" "c" "alice" "" "") true
        ["alice"] (emptyResponse 5), sW) :=
  (handler_rootHash_resolution listTreeOps sW (mkReq "genProof" "c" "alice" "" "")
      5 true ["alice"] (by decide) (by decide) (by decide)).2.2 (by decide)

/-- Claim C4 is false on the code as stated: for `getIdx` the source
assigns the tree error to `err` without checking it, so a failing
`GetIndex` (here: claim `"bob"` absent) still yields `ok=true` with an
empty error instead of propagating the tree's error text. -/
theorem getIdx_error_ignored_counterexample :
    listTreeOps.getIndex ["alice"] "bob" = .error "claim not found" ∧
    sW.mkTrees "c" = some ["alice"] ∧
    (Handler listTreeOps sW (mkReq "getIdx" "c" "bob" "" "") 5 true).1.ok = true ∧
    (Handler listTreeOps sW (mkReq "getIdx" "c" "bob" "" "") 5 true).1.error = "" :=
  ⟨rfl, by decide, by decide, by decide⟩

/-- Claim C4 (amended): on a registered census with the view resolved,
tree errors from `addClaim`, `genProof`, `dump` and `checkProof` (the
last reached with non-empty `proofData`) propagate verbatim as
`ok=false` with `error` the tree's error text, while a `getIdx` tree
error is ignored: the response keeps `ok=true` with an empty error. -/
theorem handler_tree_error_propagation {T : Type} (ops : TreeOps T)
    (s : CMState T) (r : CensusRequest) (now : Int) (tr tv : T)
    (hreg : s.mkTrees r.censusID = some tr)
    (hv : resolveView ops tr r.rootHash = .ok tv) :
    (∀ e, r.method = "addClaim" → ops.addClaim tr r.claimData = .error e →
      (Handler ops s r now true).1.ok = false ∧
      (Handler ops s r now true).1.error = e) ∧
    (∀ e, r.method = "genProof" → ops.genProof tv r.claimData = .error e →
      (Handler ops s r now true).1.ok = false ∧
      (Handler ops s r now true).1.error = e) ∧
    (∀ e, r.method = "dump" → ops.dump tv = .error e →
      (Handler ops s r now true).1.ok = false ∧
      (Handler ops s r now true).1.error = e) ∧
    (∀ e, r.method = "checkProof" → 1 ≤ r.proofData.length →
      ops.checkProof tv r.claimData r.proofData = .error e →
      (Handler ops s r now true).1.ok = false ∧
      (Handler ops s r now true).1.error = e) ∧
    (∀ e, r.method = "getIdx" → ops.getIndex tv r.claimData = .error e →
      (Handler ops s r now true).1.ok = true ∧
      (Handler ops s r now true).1.error = "") := by
  refine ⟨?_, ?_, ?_, ?_, ?_⟩
  · intro e hm herr
    simp [Handler, hreg, hm, herr, emptyResponse]
  · intro e hm herr
    simp [Handler, hreg, hm, hv, dispatchView, herr, emptyResponse]
  · intro e hm herr
    simp [Handler, hreg, hm, hv, dispatchView, herr, emptyResponse]
  · intro e hm hpd herr
    have hpd0 : ¬ r.proofData.length = 0 := by omega
    simp [Handler, hreg, hm, hv, dispatchView, herr, emptyResponse, hpd0]
  · intro e hm herr
    simp [Handler, hreg, hm, hv, dispatchView, herr, emptyResponse]

/-- Witness for the amended C4 theorem: a duplicate `addClaim` on the
live view propagates the tree's error text verbatim. -/
theorem handler_tree_error_propagation_witness :
    (Handler listTreeOps sW (mkReq "addClaim" "c" "alice" "" "") 5 true).1.ok = false ∧
    (Handler listTreeOps sW (mkReq "addClaim" "c" "alice" "" "") 5 true).1.error =
      "duplicate claim" :=
  (handler_tree_error_propagation listTreeOps sW (mkReq "addClaim" "c" "alice" "" "")
      5 ["alice"] ["alice"] (by decide) rfl).1 "duplicate claim" (by decide) rfl

/-- Claim C5 is right and the code wrong: `AddNamespace` performs no
duplicate check, so a second registration of `"a"` silently rebinds the
id to a fresh empty tree and the new key, discarding the first
namespace's tree (which held `"alice"`) and its `authKey` `"k1"`. -/
theorem addNamespace_silently_overwrites :
    sC5b.mkTrees "a" = some ["alice"] ∧
    sC5b.signatures "a" = some "k1" ∧
    sC5c.mkTrees "a" = some [] ∧
    sC5c.signatures "a" = some "k2" := by
  decide

/-- Claim C8 is false on the code as stated: an unauthorized `dump` on
a registered census whose request carries an invalid `rootHash` of
length greater than 1 is answered with `error = "invalid root hash"`
(the snapshot resolution runs before the `dump` authorization check),
not with `error = "invalid authentication"`. -/
theorem dump_unauthorized_counterexample :
    sW.mkTrees "c" = some ["alice"] ∧
    (Handler listTreeOps sW (mkReq "dump" "c" "" "xx" "") 5 false).1.ok = false ∧
    (Handler listTreeOps sW (mkReq "dump" "c" "" "xx" "") 5 false).1.error =
      "invalid root hash" ∧
    (Handler listTreeOps sW (mkReq "dump" "c" "" "xx" "") 5 false).1.error ≠
      "invalid authentication" := by
  decide

/-- Claim C8 (amended): on a registered census without authorization,
`addClaim` always answers `ok=false, error="invalid authentication"`
and inserts nothing (the state is unchanged); `dump` answers the same
provided the view resolution succeeds (in particular whenever no long
`rootHash` is supplied) — when the snapshot at the supplied `rootHash`
fails, the earlier `"invalid root hash"` error is reported instead. -/
theorem handler_unauthorized {T : Type} (ops : TreeOps T) (s : CMState T)
    (r : CensusRequest) (now : Int) (tr : T)
    (hreg : s.mkTrees r.censusID = some tr) :
    (r.method = "addClaim" →
      (Handler ops s r now false).1.ok = false ∧
      (Handler ops s r now false).1.error = "invalid authentication" ∧
      (Handler ops s r now false).2 = s) ∧
    (∀ tv, r.method = "dump" → resolveView ops tr r.rootHash = .ok tv →
      (Handler ops s r now false).1.ok = false ∧
      (Handler ops s r now false).1.error = "invalid authentication" ∧
      (Handler ops s r now false).2 = s) := by
  constructor
  · intro hm
    simp [Handler, hreg, hm, emptyResponse]
  · intro tv hm hv
    simp [Handler, hreg, hm, hv, dispatchView, emptyResponse]

/-- Witness for the amended C8 theorem: an unauthorized `addClaim` is
rejected with `"invalid authentication"` and leaves the state as is. -/
theorem handler_unauthorized_witness :
    (Handler listTreeOps sW (mkReq "addClaim" "c" "bob" "" "") 5 false).1.ok = false ∧
    (Handler listTreeOps sW (mkReq "addClaim" "c" "bob" "" "") 5 false).1.error =
      "invalid authentication" ∧
    (Handler listTreeOps sW (mkReq "addClaim" "c" "bob" "" "") 5 false).2 = sW :=
  (handler_unauthorized listTreeOps sW (mkReq "addClaim" "c" "bob" "" "") 5
      ["alice"] (by decide)).1 (by decide)

/-- Claim C9: for `checkProof` on a registered census, an empty
`proofData` is rejected with `ok=false` and a non-empty error (either
`"proofData not provided"` or, when an invalid long `rootHash` is also
supplied, `"invalid root hash"`); with non-empty `proofData` and a
resolved view whose proof check completes without error, the response
is `ok=true` with empty error and `validProof` set to the tree's
boolean verdict — a well-formed but invalid proof gives `ok=true` with
`validProof=false`, not an error. -/
theorem handler_checkProof {T : Type} (ops : TreeOps T) (s : CMState T)
    (r : CensusRequest) (now : Int) (isAuth : Bool) (tr : T)
    (hreg : s.mkTrees r.censusID = some tr)
    (hm : r.method = "checkProof") :
    (r.proofData.length = 0 →
      (Handler ops s r now isAuth).1.ok = false ∧
      (Handler ops s r now isAuth).1.error ≠ "") ∧
    (∀ tv v, 1 ≤ r.proofData.length →
      resolveView ops tr r.rootHash = .ok tv →
      ops.checkProof tv r.claimData r.proofData = .ok v →
      (Handler ops s r now isAuth).1.ok = true ∧
      (Handler ops s r now isAuth).1.error = "" ∧
      (Handler ops s r now isAuth).1.validProof = v) := by
  constructor
  · intro hpd
    cases hv : resolveView ops tr r.rootHash with
    | error e =>
      simp [Handler, hreg, hm, hv, emptyResponse]
    | ok tv =>
      simp [Handler, hreg, hm, hv, dispatchView, hpd, emptyResponse]
  · intro tv v hpd hv hcp
    have hpd0 : ¬ r.proofData.length = 0 := by omega
    cases v with
    | true => simp [Handler, hreg, hm, hv, dispatchView, hpd0, hcp, emptyResponse]
    | false => simp [Handler, hreg, hm, hv, dispatchView, hpd0, hcp, emptyResponse]

/-- Witness for the C9 theorem: a cryptographically valid proof for
`"alice"` yields `ok=true` and `validProof=true`. -/
theorem handler_checkProof_witness :
    (Handler listTreeOps sW (mkReq "checkProof" "c" "alice" "" "proof:alice") 5
      true).1.ok = true ∧
    (Handler listTreeOps sW (mkReq "checkProof" "c" "alice" "" "proof:alice") 5
      true).1.error = "" ∧
    (Handler listTreeOps sW (mkReq "checkProof" "c" "alice" "" "proof:alice") 5
      true).1.validProof = true :=
  (handler_checkProof listTreeOps sW (mkReq "checkProof" "c" "alice" "" "proof:alice")
      5 true ["alice"] (by decide) (by decide)).2 ["alice"] true (by decide) rfl rfl

/-- Claim C10: request handling never touches the `Signatures` map,
never touches any tree other than the target census's, leaves the state
entirely unchanged unless the request is an authorized `addClaim`, and
in that case changes at most the target census's binding, to the tree
returned by a successful insert. -/
theorem handler_frame {T : Type} (ops : TreeOps T) (s : CMState T)
    (r : CensusRequest) (now : Int) (isAuth : Bool) :
    ((Handler ops s r now isAuth).2.signatures = s.signatures) ∧
    (∀ k, k ≠ r.censusID → (Handler ops s r now isAuth).2.mkTrees k = s.mkTrees k) ∧
    (¬(r.method = "addClaim" ∧ isAuth = true) → (Handler ops s r now isAuth).2 = s) ∧
    ((Handler ops s r now isAuth).2.mkTrees r.censusID = s.mkTrees r.censusID ∨
      (r.method = "addClaim" ∧ isAuth = true ∧
        ∃ tr tr2, s.mkTrees r.censusID = some tr ∧
          ops.addClaim tr r.claimData = .ok tr2 ∧
          (Handler ops s r now isAuth).2.mkTrees r.censusID = some tr2)) := by
  unfold Handler
  cases hm : s.mkTrees r.censusID with
  | none => simp [hm]
  | some tr =>
    by_cases h1 : r.method = "getRoot"
    · simp [h1, hm]
    · by_cases h2 : r.method = "addClaim"
      · cases isAuth with
        | false => simp [h1, h2, hm]
        | true =>
          cases hc : ops.addClaim tr r.claimData with
          | ok tr2 =>
            refine ⟨by simp [h1, h2, hc], ?_, ?_, ?_⟩
            · intro k hk
              simp [h1, h2, hc, hk]
            · intro hcontra
              exact absurd ⟨h2, rfl⟩ hcontra
            · right
              exact ⟨h2, rfl, tr, tr2, rfl, hc, by simp [h1, h2, hc]⟩
          | error e => simp [h1, h2, hc, hm]
      · cases hv : resolveView ops tr r.rootHash with
        | error e => simp [h1, h2, hv, hm]
        | ok tv => simp [h1, h2, hv, hm]

/-- Witness for the C10 frame theorem: a `getRoot` request leaves the
state unchanged. -/
theorem handler_frame_witness :
    (Handler listTreeOps sW (mkReq "getRoot" "c" "" "" "") 5 true).2 = sW :=
  (handler_frame listTreeOps sW (mkReq "getRoot" "c" "" "" "") 5 true).2.2.1
    (by decide)

/-- The concrete witness tree operations only ever produce non-empty
error messages. -/
theorem listTreeOps_errorsNonempty : TreeOps.errorsNonempty listTreeOps := by
  refine ⟨?_, ?_, ?_, ?_⟩
  · intro t d e h
    simp only [listTreeOps] at h
    split at h <;> simp_all
    subst h
    decide
  · intro t d e h
    simp only [listTreeOps] at h
    split at h <;> simp_all
    subst h
    decide
  · intro t e h
    simp only [listTreeOps] at h
    simp_all
  · intro t d p e h
    simp only [listTreeOps] at h
    split at h <;> simp_all
    subst h
    decide

/-- The per-method dispatch preserves the response invariant: starting
from the freshly initialised response, it yields either success with an
empty error or failure with a non-empty error, and a failing response
carries no populated operation result. -/
theorem dispatchView_invariant {T : Type} (ops : TreeOps T) (r : CensusRequest)
    (isAuth : Bool) (t : T) (now : Int)
    (hgen : ∀ d e, ops.genProof t d = .error e → e ≠ "")
    (hdump : ∀ e, ops.dump t = .error e → e ≠ "")
    (hcheck : ∀ d p e, ops.checkProof t d p = .error e → e ≠ "") :
    ∀ resp, resp = dispatchView ops r isAuth t (emptyResponse now) →
      ((resp.ok = true ∧ resp.error = "") ∨ (resp.ok = false ∧ resp.error ≠ "")) ∧
      (resp.ok = false → resp.root = "" ∧ resp.siblings = "" ∧ resp.idx = 0 ∧
        resp.claimsData = [] ∧ resp.validProof = false) := by
  intro resp hresp
  subst hresp
  by_cases h1 : r.method = "genProof"
  · cases hg : ops.genProof t r.claimData with
    | ok sib => simp [dispatchView, h1, hg, emptyResponse]
    | error e =>
      have he := hgen _ _ hg
      simp [dispatchView, h1, hg, emptyResponse, he]
  · by_cases h2 : r.method = "getIdx"
    · cases hg : ops.getIndex t r.claimData with
      | ok i => simp [dispatchView, h1, h2, hg, emptyResponse]
      | error e => simp [dispatchView, h1, h2, hg, emptyResponse]
    · by_cases h3 : r.method = "dump"
      · cases isAuth with
        | false => simp [dispatchView, h1, h2, h3, emptyResponse]
        | true =>
          cases hg : ops.dump t with
          | ok vs => simp [dispatchView, h1, h2, h3, hg, emptyResponse]
          | error e =>
            have he := hdump _ hg
            simp [dispatchView, h1, h2, h3, hg, emptyResponse, he]
      · by_cases h4 : r.method = "checkProof"
        · by_cases h5 : r.proofData.length < 1
          · simp [dispatchView, h1, h2, h3, h4, h5, emptyResponse]
          · cases hg : ops.checkProof t r.claimData r.proofData with
            | ok v => simp [dispatchView, h1, h2, h3, h4, h5, hg, emptyResponse]
            | error e =>
              have he := hcheck _ _ _ hg
              simp [dispatchView, h1, h2, h3, h4, h5, hg, emptyResponse, he]
        · simp [dispatchView, h1, h2, h3, h4, emptyResponse]

/-- Claim C6: assuming the external tree's error messages are
non-empty, every dispatcher response has exactly one outcome: `ok=true`
with an empty error, or `ok=false` with a non-empty error; and a
failing response never carries a populated operation result (`root`,
`siblings`, `idx`, `claimsData`, `validProof` all stay at their zero
values). -/
theorem handler_response_invariant {T : Type} (ops : TreeOps T) (s : CMState T)
    (r : CensusRequest) (now : Int) (isAuth : Bool)
    (hne : TreeOps.errorsNonempty ops) :
    ∀ resp, resp = (Handler ops s r now isAuth).1 →
      ((resp.ok = true ∧ resp.error = "") ∨ (resp.ok = false ∧ resp.error ≠ "")) ∧
      (resp.ok = false → resp.root = "" ∧ resp.siblings = "" ∧ resp.idx = 0 ∧
        resp.claimsData = [] ∧ resp.validProof = false) := by
  obtain ⟨hadd, hgen, hdump, hcheck⟩ := hne
  intro resp hresp
  subst hresp
  cases hm : s.mkTrees r.censusID with
  | none => simp [Handler, hm, emptyResponse]
  | some tr =>
    by_cases h1 : r.method = "getRoot"
    · simp [Handler, hm, h1, emptyResponse]
    · by_cases h2 : r.method = "addClaim"
      · cases isAuth with
        | false => simp [Handler, hm, h1, h2, emptyResponse]
        | true =>
          cases hc : ops.addClaim tr r.claimData with
          | ok t2 => simp [Handler, hm, h1, h2, hc, emptyResponse]
          | error e =>
            have he := hadd _ _ _ hc
            simp [Handler, hm, h1, h2, hc, emptyResponse, he]
      · cases hv : resolveView ops tr r.rootHash with
        | error e => simp [Handler, hm, h1, h2, hv, emptyResponse]
        | ok tv =>
          have h3 := dispatchView_invariant ops r isAuth tv now
            (hgen tv) (hdump tv) (hcheck tv)
            (dispatchView ops r isAuth tv (emptyResponse now)) rfl
          simpa [Handler, hm, h1, h2, hv] using h3

/-- Witness for the C6 theorem: a `genProof` request for an absent
claim fails with the tree's non-empty error and no populated result. -/
theorem handler_response_invariant_witness :
    (((Handler listTreeOps sW (mkReq "genProof" "c" "bob" "" "") 5 true).1.ok = true ∧
      (Handler listTreeOps sW (mkReq "genProof" "c" "bob" "" "") 5 true).1.error = "") ∨
     ((Handler listTreeOps sW (mkReq "genProof" "c" "bob" "" "") 5 true).1.ok = false ∧
      (Handler listTreeOps sW (mkReq "genProof" "c" "bob" "" "") 5 true).1.error ≠ "")) ∧
    ((Handler listTreeOps sW (mkReq "genProof" "c" "bob" "" "") 5 true).1.ok = false →
      (Handler listTreeOps sW (mkReq "genProof" "c" "bob" "" "") 5 true).1.root = "" ∧
      (Handler listTreeOps sW (mkReq "genProof" "c" "bob" "" "") 5 true).1.siblings = "" ∧
      (Handler listTreeOps sW (mkReq "genProof" "c" "bob" "" "") 5 true).1.idx = 0 ∧
      (Handler listTreeOps sW (mkReq "genProof" "c" "bob" "" "") 5 true).1.claimsData = [] ∧
      (Handler listTreeOps sW (mkReq "genProof" "c" "bob" "" "") 5 true).1.validProof = false) :=
  handler_response_invariant listTreeOps sW (mkReq "genProof" "c" "bob" "" "") 5 true
    listTreeOps_errorsNonempty
    (Handler listTreeOps sW (mkReq "genProof" "c" "bob" "" "") 5 true).1 rfl

end CensusManager
